import Mathlib

/-!
Verification of the drowsiness-assessment engine of
`unified_drowsiness_detector.py`.

The engine is embedded shallowly:
* eye/mouth aspect-ratio extraction (`calculate_distance`,
  `calculate_eye_aspect_ratio`, `calculate_mouth_aspect_ratio`) over real
  2-D landmark coordinates;
* the pure scorer `assess_drowsiness` over rational aspect ratios;
* the per-frame statistics and alert state machine of the camera loop
  (`camStep`, `trigger_camera_alert`) and of video playback (`videoStep`,
  `on_video_end`), acting on an explicit `DetectorState`.
-/

namespace Drowsiness

/-- Status labels produced by `assess_drowsiness` and `analyze_frame`. -/
inductive Status where
  | alert
  | mildlyTired
  | slightlyDrowsy
  | drowsy
  | veryDrowsyAsleep
  | noFace
  | error
deriving DecidableEq, Repr

/-- The closed set of indicator tags appended by `assess_drowsiness`
(one tag per human-readable indicator string in the source). -/
inductive Indicator where
  | eyesFullyClosed
  | eyesNearlyClosed
  | eyesPartiallyClosed
  | eyesSlightlyClosing
  | eyesNarrowing
  | wideYawn
  | yawning
  | mouthOpening
deriving DecidableEq, Repr

/-- `assess_drowsiness(left_ear, right_ear, mar)`: threshold-band scorer.
Mirrors the source: an elif chain over `avg_ear` adds eye points and one
indicator, an independent elif chain over `mar` adds mouth points and one
indicator, the score is clamped at 100, and the status is read off the
score by a descending elif chain. -/
def assess_drowsiness (left_ear right_ear mar : ℚ) : ℕ × Status × List Indicator :=
  let avg_ear := (left_ear + right_ear) / 2
  let eye : ℕ × List Indicator :=
    if avg_ear < 0.20 then (70, [Indicator.eyesFullyClosed])
    else if avg_ear < 0.293 then (60, [Indicator.eyesNearlyClosed])
    else if avg_ear < 0.343 then (40, [Indicator.eyesPartiallyClosed])
    else if avg_ear < 0.393 then (25, [Indicator.eyesSlightlyClosing])
    else if avg_ear < 0.443 then (10, [Indicator.eyesNarrowing])
    else (0, [])
  let mouth : ℕ × List Indicator :=
    if mar > 0.267 then (35, [Indicator.wideYawn])
    else if mar > 0.167 then (30, [Indicator.yawning])
    else if mar > 0.117 then (15, [Indicator.mouthOpening])
    else (0, [])
  let score := min (eye.1 + mouth.1) 100
  let status :=
    if score ≥ 65 then Status.veryDrowsyAsleep
    else if score ≥ 45 then Status.drowsy
    else if score ≥ 25 then Status.slightlyDrowsy
    else if score ≥ 10 then Status.mildlyTired
    else Status.alert
  (score, status, eye.2 ++ mouth.2)

/-- Spec-side eye contribution, written as the spec's half-open bands:
`< 0.20 → 70`, `[0.20, 0.293) → 60`, `[0.293, 0.343) → 40`,
`[0.343, 0.393) → 25`, `[0.393, 0.443) → 10`, `≥ 0.443 → 0`. -/
def spec_eyePoints (avg : ℚ) : ℕ :=
  if avg < 0.20 then 70
  else if 0.20 ≤ avg ∧ avg < 0.293 then 60
  else if 0.293 ≤ avg ∧ avg < 0.343 then 40
  else if 0.343 ≤ avg ∧ avg < 0.393 then 25
  else if 0.393 ≤ avg ∧ avg < 0.443 then 10
  else 0

/-- Spec-side mouth contribution, written as the spec's bands:
`> 0.267 → 35`, `(0.167, 0.267] → 30`, `(0.117, 0.167] → 15`,
`≤ 0.117 → 0`. -/
def spec_mouthPoints (m : ℚ) : ℕ :=
  if 0.267 < m then 35
  else if 0.167 < m ∧ m ≤ 0.267 then 30
  else if 0.117 < m ∧ m ≤ 0.167 then 15
  else 0

/-- Spec-side status map: first match descending on the total score. -/
def spec_statusFromScore (score : ℕ) : Status :=
  if score ≥ 65 then Status.veryDrowsyAsleep
  else if score ≥ 45 then Status.drowsy
  else if score ≥ 25 then Status.slightlyDrowsy
  else if score ≥ 10 then Status.mildlyTired
  else Status.alert

/-- Classifier of indicators coming from the eye elif chain. -/
def Indicator.isEyeBand : Indicator → Bool
  | Indicator.eyesFullyClosed => true
  | Indicator.eyesNearlyClosed => true
  | Indicator.eyesPartiallyClosed => true
  | Indicator.eyesSlightlyClosing => true
  | Indicator.eyesNarrowing => true
  | _ => false

/-- Classifier of indicators coming from the mouth elif chain. -/
def Indicator.isMouthBand : Indicator → Bool
  | Indicator.wideYawn => true
  | Indicator.yawning => true
  | Indicator.mouthOpening => true
  | _ => false

/-- A facial landmark: normalized 2-D position (the z coordinate of the
face mesh is never read by the ratio computations). -/
structure Landmark where
  x : ℝ
  y : ℝ

/-- `calculate_distance`: Euclidean distance in the 2-D plane. -/
noncomputable def calculate_distance (point1 point2 : Landmark) : ℝ :=
  Real.sqrt ((point1.x - point2.x) ^ 2 + (point1.y - point2.y) ^ 2)

/-- `calculate_eye_aspect_ratio`: the classic 6-point EAR
`(dist(p2,p6) + dist(p3,p5)) / (2.0 * dist(p1,p4))`, returning 0 when the
horizontal distance is 0 instead of dividing. -/
noncomputable def calculate_eye_aspect_ratio (eye_landmarks : Fin 6 → ℕ)
    (landmarks : ℕ → Landmark) : ℝ :=
  let p1 := landmarks (eye_landmarks 0)
  let p2 := landmarks (eye_landmarks 1)
  let p3 := landmarks (eye_landmarks 2)
  let p4 := landmarks (eye_landmarks 3)
  let p5 := landmarks (eye_landmarks 4)
  let p6 := landmarks (eye_landmarks 5)
  let vertical1 := calculate_distance p2 p6
  let vertical2 := calculate_distance p3 p5
  let horizontal := calculate_distance p1 p4
  if horizontal = 0 then 0
  else (vertical1 + vertical2) / (2.0 * horizontal)

/-- `calculate_mouth_aspect_ratio`: the 4-point MAR
`dist(p2,p8) / dist(p1,p5)`, returning 0 when the horizontal distance is
0 instead of dividing. -/
noncomputable def calculate_mouth_aspect_ratio (mouth_landmarks : Fin 4 → ℕ)
    (landmarks : ℕ → Landmark) : ℝ :=
  let p1 := landmarks (mouth_landmarks 0)
  let p2 := landmarks (mouth_landmarks 1)
  let p5 := landmarks (mouth_landmarks 2)
  let p8 := landmarks (mouth_landmarks 3)
  let vertical := calculate_distance p2 p8
  let horizontal := calculate_distance p1 p5
  if horizontal = 0 then 0
  else vertical / horizontal

/-- Per-frame observation fed to the loops: a detected face carries the
extracted ratios; otherwise `analyze_frame` short-circuits with score 0
and status NoFace, and an extraction failure with score 0 and status
Error. -/
inductive FrameObs where
  | face (left_ear right_ear mar : ℚ)
  | noFace
  | error

/-- The score/status/indicator triple `analyze_frame` hands to the loops. -/
def analyze_frame : FrameObs → ℕ × Status × List Indicator
  | FrameObs.face l r m => assess_drowsiness l r m
  | FrameObs.noFace => (0, Status.noFace, [])
  | FrameObs.error => (0, Status.error, [])

/-- The per-session counters and the alert timestamp of the detector,
mirroring the attributes of the same names. -/
structure DetectorState where
  total_frames : ℕ
  current_frame_num : ℕ
  drowsy_frames : ℕ
  drowsy_detections : ℕ
  last_alert_time : ℚ
deriving DecidableEq, Repr

/-- `self.alert_threshold = 30` (frames before alert). -/
def alert_threshold : ℕ := 30

/-- `self.alert_cooldown = 5` (seconds between alerts). -/
def alert_cooldown : ℚ := 5

/-- `trigger_camera_alert`: fires (returns `true`) and stamps
`last_alert_time` only when more than `alert_cooldown` seconds have
passed since the last alert. -/
def trigger_camera_alert (s : DetectorState) (now : ℚ) : DetectorState × Bool :=
  if now - s.last_alert_time > alert_cooldown then
    ({ s with last_alert_time := now }, true)
  else (s, false)

/-- One iteration of `_camera_loop` after a frame was read: increment the
frame counter, track the consecutive-drowsy counter (incrementing at
score ≥ 65, resetting otherwise, and calling `trigger_camera_alert` once
the threshold is reached), then track `drowsy_detections` at score ≥ 45.
Returns the new state and whether an alert fired. -/
def camStep (s : DetectorState) (score : ℕ) (now : ℚ) : DetectorState × Bool :=
  let s1 := { s with current_frame_num := s.current_frame_num + 1 }
  let step2 : DetectorState × Bool :=
    if score ≥ 65 then
      let s2 := { s1 with drowsy_frames := s1.drowsy_frames + 1 }
      if s2.drowsy_frames ≥ alert_threshold then trigger_camera_alert s2 now
      else (s2, false)
    else ({ s1 with drowsy_frames := 0 }, false)
  let s4 :=
    if score ≥ 45 then
      { step2.1 with drowsy_detections := step2.1.drowsy_detections + 1 }
    else step2.1
  (s4, step2.2)

/-- Run `_camera_loop` over a list of (score, wall-clock time) frames,
returning the final state and how many alerts fired. -/
def camRun (s : DetectorState) (frames : List (ℕ × ℚ)) : DetectorState × ℕ :=
  match frames with
  | [] => (s, 0)
  | f :: rest =>
      let step := camStep s f.1 f.2
      let tail := camRun step.1 rest
      (tail.1, (if step.2 then 1 else 0) + tail.2)

/-- One iteration of `_play_video_thread` after a frame was read:
increment the frame counter; at score ≥ 45 increment `drowsy_detections`
and additionally, at score ≥ 65, the cumulative `drowsy_frames`. -/
def videoStep (s : DetectorState) (score : ℕ) : DetectorState :=
  let s1 := { s with current_frame_num := s.current_frame_num + 1 }
  if score ≥ 45 then
    let s2 := { s1 with drowsy_detections := s1.drowsy_detections + 1 }
    if score ≥ 65 then { s2 with drowsy_frames := s2.drowsy_frames + 1 }
    else s2
  else s1

/-- Outcome of the end-of-video handler: either no summary (metadata frame
count was 0), a `ZeroDivisionError` (the percentage divides by
`current_frame_num`, which can be 0 while `total_frames` is positive), or
the summary shown to the user. -/
inductive SummaryResult where
  | noSummary
  | divisionError
  | summary (totalFrames drowsyFrames : ℕ) (percentage : ℚ) (veryDrowsy : ℕ)
deriving DecidableEq, Repr

/-- `on_video_end`: shows the analysis summary when the loaded video's
metadata frame count is positive. The percentage is
`drowsy_detections / current_frame_num * 100`; Python raises
`ZeroDivisionError` when `current_frame_num = 0`, modelled by
`SummaryResult.divisionError`. -/
def on_video_end (s : DetectorState) : SummaryResult :=
  if 0 < s.total_frames then
    if s.current_frame_num = 0 then SummaryResult.divisionError
    else
      SummaryResult.summary s.current_frame_num s.drowsy_detections
        ((s.drowsy_detections : ℚ) / (s.current_frame_num : ℚ) * 100)
        s.drowsy_frames
  else SummaryResult.noSummary

/-- The run modes distinguished by `self.file_type` where statistics are
displayed. -/
inductive FileMode where
  | image
  | video
  | camera
deriving DecidableEq, Repr

/-- The `analyzed` denominator used by `update_results`:
`current_frame_num` in video mode, `total_frames` otherwise. -/
def update_results_analyzed (mode : FileMode) (s : DetectorState) : ℕ :=
  if mode = FileMode.video then s.current_frame_num else s.total_frames

/-- The drowsy percentage shown by `update_results`: recomputed only when
`analyzed > 0`, otherwise the label keeps its previous value (`prev`,
which `reset_results` sets to 0 at session start). -/
def update_results_percentage (mode : FileMode) (s : DetectorState)
    (prev : ℚ) : ℚ :=
  if 0 < update_results_analyzed mode s then
    (s.drowsy_detections : ℚ) / (update_results_analyzed mode s : ℚ) * 100
  else prev

/-- The statistics reset performed by `start_camera`. -/
def start_camera_reset (s : DetectorState) : DetectorState :=
  { s with total_frames := 0, current_frame_num := 0,
           drowsy_detections := 0, drowsy_frames := 0, last_alert_time := 0 }

/-- The statistics reset performed by `load_video` (the metadata frame
count of the new video becomes `total_frames`). -/
def load_video_reset (s : DetectorState) (frame_count : ℕ) : DetectorState :=
  { s with total_frames := frame_count, current_frame_num := 0,
           drowsy_detections := 0, drowsy_frames := 0 }

/-- The statistics reset performed by `load_image`. -/
def load_image_reset (s : DetectorState) : DetectorState :=
  { s with total_frames := 1, current_frame_num := 0,
           drowsy_detections := 0, drowsy_frames := 0 }

set_option maxHeartbeats 1000000 in
/-- The spec's half-open eye bands coincide with the source's elif chain. -/
theorem spec_eyePoints_elif (a : ℚ) :
    spec_eyePoints a =
      if a < 0.20 then 70
      else if a < 0.293 then 60
      else if a < 0.343 then 40
      else if a < 0.393 then 25
      else if a < 0.443 then 10
      else 0 := by
  unfold spec_eyePoints
  split_ifs <;>
    first
      | rfl
      | (exfalso; simp only [not_and_or, not_lt, not_le] at *; (try casesm* _ ∨ _) <;> linarith)

set_option maxHeartbeats 1000000 in
/-- The spec's half-open mouth bands coincide with the source's elif chain. -/
theorem spec_mouthPoints_elif (m : ℚ) :
    spec_mouthPoints m =
      if 0.267 < m then 35
      else if 0.167 < m then 30
      else if 0.117 < m then 15
      else 0 := by
  unfold spec_mouthPoints
  split_ifs <;>
    first
      | rfl
      | (exfalso; simp only [not_and_or, not_lt, not_le] at *; (try casesm* _ ∨ _) <;> linarith)

set_option maxHeartbeats 1000000 in
/-- The score component of `assess_drowsiness` is the clamped sum of the
spec-side eye and mouth band points. -/
theorem assess_score_eq (l r m : ℚ) :
    (assess_drowsiness l r m).1 =
      min (spec_eyePoints ((l + r) / 2) + spec_mouthPoints m) 100 := by
  rw [spec_eyePoints_elif, spec_mouthPoints_elif]
  unfold assess_drowsiness
  dsimp only
  split_ifs <;> rfl

/-- The status component of `assess_drowsiness` is determined by its score
component through the spec-side descending status map. -/
theorem assess_status_eq (l r m : ℚ) :
    (assess_drowsiness l r m).2.1 =
      spec_statusFromScore (assess_drowsiness l r m).1 := by
  unfold assess_drowsiness spec_statusFromScore
  dsimp only

/-- C1: for all non-negative eye aspect ratios and non-negative mouth
aspect ratio, the total score equals `min(eyePoints + mouthPoints, 100)`
where `eyePoints` is the single first-matching eye band of
`avgEAR = (leftEAR + rightEAR)/2` and `mouthPoints` the single
first-matching mouth band of `MAR`, and the status is read from the total
score by first match in descending order (≥65 VeryDrowsyAsleep, ≥45
Drowsy, ≥25 SlightlyDrowsy, ≥10 MildlyTired, else Alert). -/
theorem assess_drowsiness_score_status_spec (l r m : ℚ)
    (hl : 0 ≤ l) (hr : 0 ≤ r) (hm : 0 ≤ m) :
    (assess_drowsiness l r m).1 =
      min (spec_eyePoints ((l + r) / 2) + spec_mouthPoints m) 100 ∧
    (assess_drowsiness l r m).2.1 =
      spec_statusFromScore (assess_drowsiness l r m).1 :=
  ⟨assess_score_eq l r m, assess_status_eq l r m⟩

/-- Witness for C1: the theorem applied at `leftEAR = rightEAR = 0.3`,
`MAR = 0.2`. -/
theorem assess_drowsiness_score_status_spec_witness :
    (assess_drowsiness 0.3 0.3 0.2).1 =
      min (spec_eyePoints ((0.3 + 0.3) / 2) + spec_mouthPoints 0.2) 100 ∧
    (assess_drowsiness 0.3 0.3 0.2).2.1 =
      spec_statusFromScore (assess_drowsiness 0.3 0.3 0.2).1 :=
  assess_drowsiness_score_status_spec 0.3 0.3 0.2 (by norm_num) (by norm_num)
    (by norm_num)

/-- C3 counterexample: at `avgEAR` exactly `0.343` (left = right = 0.343)
and `MAR = 0` the scorer awards 25 points with the EyesSlightlyClosing
indicator; the EyesPartiallyClosed indicator (40 points) is absent. -/
theorem boundary_0343_counterexample :
    (assess_drowsiness 0.343 0.343 0).1 = 25 ∧
    (assess_drowsiness 0.343 0.343 0).2.2 = [Indicator.eyesSlightlyClosing] ∧
    Indicator.eyesPartiallyClosed ∉ (assess_drowsiness 0.343 0.343 0).2.2 := by
  norm_num [assess_drowsiness]
  decide

/-- C3 amended: for inputs with `avgEAR` exactly equal to `0.343` and
`MAR ≤ 0.117`, the scorer assigns the EyesSlightlyClosing band worth 25
points (the band upper bounds are exclusive: `avgEAR < 0.343` selects the
40-point band), not the EyesPartiallyClosed band. -/
theorem boundary_0343_amended (l r m : ℚ)
    (havg : (l + r) / 2 = 0.343) (hm : m ≤ 0.117) :
    assess_drowsiness l r m =
      (25, Status.slightlyDrowsy, [Indicator.eyesSlightlyClosing]) := by
  have h1 : ¬ m > 0.267 := by rw [gt_iff_lt, not_lt]; linarith
  have h2 : ¬ m > 0.167 := by rw [gt_iff_lt, not_lt]; linarith
  have h3 : ¬ m > 0.117 := by rw [gt_iff_lt, not_lt]; linarith
  unfold assess_drowsiness
  dsimp only
  rw [havg, if_neg h1, if_neg h2, if_neg h3]
  norm_num

/-- Witness for the amended C3: applied at `left = right = 0.343`,
`MAR = 0`. -/
theorem boundary_0343_amended_witness :
    assess_drowsiness 0.343 0.343 0 =
      (25, Status.slightlyDrowsy, [Indicator.eyesSlightlyClosing]) :=
  boundary_0343_amended 0.343 0.343 0 (by norm_num) (by norm_num)

/-- C8: the scorer is a pure function (two calls on equal inputs return
equal results) and for all non-negative inputs its score lies in
`[0, 100]`. -/
theorem assess_drowsiness_pure_bounded (l r m : ℚ)
    (hl : 0 ≤ l) (hr : 0 ≤ r) (hm : 0 ≤ m) :
    assess_drowsiness l r m = assess_drowsiness l r m ∧
    0 ≤ (assess_drowsiness l r m).1 ∧ (assess_drowsiness l r m).1 ≤ 100 :=
  ⟨rfl, Nat.zero_le _, by rw [assess_score_eq]; exact min_le_right _ _⟩

/-- Witness for C8: the theorem applied at `0.1, 0.5, 0.4`. -/
theorem assess_drowsiness_pure_bounded_witness :
    assess_drowsiness 0.1 0.5 0.4 = assess_drowsiness 0.1 0.5 0.4 ∧
    0 ≤ (assess_drowsiness 0.1 0.5 0.4).1 ∧
    (assess_drowsiness 0.1 0.5 0.4).1 ≤ 100 :=
  assess_drowsiness_pure_bounded 0.1 0.5 0.4 (by norm_num) (by norm_num)
    (by norm_num)

set_option maxHeartbeats 1000000 in
/-- C10: the indicator list holds at most one eye-band tag and at most one
mouth-band tag (hence has length at most 2), and it is empty exactly when
the score is 0. -/
theorem assess_drowsiness_indicators_shape (l r m : ℚ) :
    ((assess_drowsiness l r m).2.2.countP Indicator.isEyeBand ≤ 1) ∧
    ((assess_drowsiness l r m).2.2.countP Indicator.isMouthBand ≤ 1) ∧
    ((assess_drowsiness l r m).2.2.length ≤ 2) ∧
    ((assess_drowsiness l r m).2.2 = [] ↔ (assess_drowsiness l r m).1 = 0) := by
  unfold assess_drowsiness
  dsimp only
  split_ifs <;> simp [Indicator.isEyeBand, Indicator.isMouthBand]

/-- In one camera-loop iteration, `drowsy_detections` grows by one exactly
when the score is at least 45. -/
theorem camStep_drowsy_detections (s : DetectorState) (score : ℕ) (now : ℚ) :
    (camStep s score now).1.drowsy_detections =
      s.drowsy_detections + if score ≥ 45 then 1 else 0 := by
  unfold camStep trigger_camera_alert
  dsimp only
  split_ifs <;> rfl

/-- In one camera-loop iteration, the consecutive-drowsy counter grows by
one at score ≥ 65 and resets to 0 otherwise. -/
theorem camStep_drowsy_frames (s : DetectorState) (score : ℕ) (now : ℚ) :
    (camStep s score now).1.drowsy_frames =
      if score ≥ 65 then s.drowsy_frames + 1 else 0 := by
  unfold camStep trigger_camera_alert
  dsimp only
  split_ifs <;> rfl

/-- C5: per camera frame, `drowsy_detections` increments exactly when the
score is ≥ 45; the consecutive-drowsy counter increments exactly when the
score is ≥ 65 and resets to 0 otherwise; NoFace and Error frames score 0
and hence reset the consecutive counter. -/
theorem camera_loop_counting (s : DetectorState) (obs : FrameObs) (now : ℚ) :
    ((camStep s (analyze_frame obs).1 now).1.drowsy_detections =
      s.drowsy_detections + if (analyze_frame obs).1 ≥ 45 then 1 else 0) ∧
    ((camStep s (analyze_frame obs).1 now).1.drowsy_frames =
      if (analyze_frame obs).1 ≥ 65 then s.drowsy_frames + 1 else 0) ∧
    (analyze_frame FrameObs.noFace).1 = 0 ∧
    (analyze_frame FrameObs.error).1 = 0 ∧
    (camStep s (analyze_frame FrameObs.noFace).1 now).1.drowsy_frames = 0 ∧
    (camStep s (analyze_frame FrameObs.error).1 now).1.drowsy_frames = 0 :=
  ⟨camStep_drowsy_detections s (analyze_frame obs).1 now,
   camStep_drowsy_frames s (analyze_frame obs).1 now,
   rfl, rfl,
   by rw [camStep_drowsy_frames]; rfl,
   by rw [camStep_drowsy_frames]; rfl⟩

/-- C6: per playback frame, `drowsy_detections` increments exactly when
the score is ≥ 45 and the cumulative very-drowsy counter increments
exactly when the score is ≥ 65 (in particular it is never reset); the
alert timestamp is untouched (playback feeds no alert debounce); the
end-of-session summary reports the very-drowsy counter. -/
theorem video_playback_counting (s : DetectorState) (score : ℕ) :
    ((videoStep s score).drowsy_detections =
      s.drowsy_detections + if score ≥ 45 then 1 else 0) ∧
    ((videoStep s score).drowsy_frames =
      s.drowsy_frames + if score ≥ 65 then 1 else 0) ∧
    ((videoStep s score).last_alert_time = s.last_alert_time) ∧
    (0 < s.total_frames → s.current_frame_num ≠ 0 →
      on_video_end s =
        SummaryResult.summary s.current_frame_num s.drowsy_detections
          ((s.drowsy_detections : ℚ) / (s.current_frame_num : ℚ) * 100)
          s.drowsy_frames) := by
  refine ⟨?_, ?_, ?_, ?_⟩
  · unfold videoStep
    dsimp only
    split_ifs <;> (dsimp only; try omega)
  · unfold videoStep
    dsimp only
    split_ifs <;> (dsimp only; try omega)
  · unfold videoStep
    dsimp only
    split_ifs <;> rfl
  · intro h1 h2
    unfold on_video_end
    rw [if_pos h1, if_neg h2]

/-- Witness for C6: the theorem applied at a concrete playback state with
a score of 70; the summary hypotheses are discharged there. -/
theorem video_playback_counting_witness :
    ((videoStep ⟨100, 40, 7, 12, 0⟩ 70).drowsy_detections =
      12 + if 70 ≥ 45 then 1 else 0) ∧
    ((videoStep ⟨100, 40, 7, 12, 0⟩ 70).drowsy_frames =
      7 + if 70 ≥ 65 then 1 else 0) ∧
    ((videoStep ⟨100, 40, 7, 12, 0⟩ 70).last_alert_time = 0) ∧
    (on_video_end ⟨100, 40, 7, 12, 0⟩ =
      SummaryResult.summary 40 12 ((12 : ℚ) / (40 : ℚ) * 100) 7) :=
  ⟨(video_playback_counting ⟨100, 40, 7, 12, 0⟩ 70).1,
   (video_playback_counting ⟨100, 40, 7, 12, 0⟩ 70).2.1,
   (video_playback_counting ⟨100, 40, 7, 12, 0⟩ 70).2.2.1,
   (video_playback_counting ⟨100, 40, 7, 12, 0⟩ 70).2.2.2 (by norm_num)
     (by norm_num)⟩

/-- C7: evaluation at the failing input. A video whose metadata reports
one frame but from which playback decodes zero frames (the single frame
was consumed for the preview) reaches `on_video_end` with
`total_frames = 1` and `current_frame_num = 0`; the guard tests
`total_frames` but the percentage divides by `current_frame_num`, so the
code raises `ZeroDivisionError` instead of reporting 0. -/
theorem on_video_end_division_by_zero :
    on_video_end ⟨1, 0, 0, 0, 0⟩ = SummaryResult.divisionError := rfl

/-- C9 counterexample: loading a new file does not zero
`last_alert_time`. Starting from a state whose previous session left
`last_alert_time = 100`, `load_video` leaves it at 100. -/
theorem session_reset_counterexample :
    ¬ ((load_video_reset ⟨0, 5, 3, 2, 100⟩ 10).last_alert_time = 0) := by
  unfold load_video_reset
  norm_num

/-- C9 amended: `start_camera` zeroes `total_frames`,
`current_frame_num`, `drowsy_detections`, `drowsy_frames` and
`last_alert_time`; `load_video` and `load_image` zero the frame and
drowsiness counters (`load_image` sets `total_frames` to 1, the single
image to analyze) but leave `last_alert_time` unchanged; since only
camera sessions fire alerts and `start_camera` zeroes the timestamp, the
first alert of a new camera session is never blocked by the previous
session's cooldown: on a fresh camera state the trigger fires at any
wall-clock time greater than the 5-second cooldown. -/
theorem session_reset_amended (s : DetectorState) (n : ℕ) (now : ℚ)
    (hnow : now > 5) :
    (start_camera_reset s).total_frames = 0 ∧
    (start_camera_reset s).current_frame_num = 0 ∧
    (start_camera_reset s).drowsy_detections = 0 ∧
    (start_camera_reset s).drowsy_frames = 0 ∧
    (start_camera_reset s).last_alert_time = 0 ∧
    (load_video_reset s n).current_frame_num = 0 ∧
    (load_video_reset s n).drowsy_detections = 0 ∧
    (load_video_reset s n).drowsy_frames = 0 ∧
    (load_video_reset s n).last_alert_time = s.last_alert_time ∧
    (load_image_reset s).total_frames = 1 ∧
    (load_image_reset s).current_frame_num = 0 ∧
    (load_image_reset s).drowsy_detections = 0 ∧
    (load_image_reset s).drowsy_frames = 0 ∧
    (load_image_reset s).last_alert_time = s.last_alert_time ∧
    (trigger_camera_alert (start_camera_reset s) now).2 = true := by
  refine ⟨rfl, rfl, rfl, rfl, rfl, rfl, rfl, rfl, rfl, rfl, rfl, rfl, rfl,
    rfl, ?_⟩
  unfold trigger_camera_alert start_camera_reset alert_cooldown
  rw [if_pos (by dsimp only; linarith)]

/-- Splitting a camera run: states thread through, alert counts add. -/
theorem camRun_append (s : DetectorState) (L1 L2 : List (ℕ × ℚ)) :
    camRun s (L1 ++ L2) =
      ((camRun (camRun s L1).1 L2).1,
       (camRun s L1).2 + (camRun (camRun s L1).1 L2).2) := by
  induction L1 generalizing s with
  | nil => simp [camRun]
  | cons f rest ih =>
      simp only [List.cons_append, camRun, List.append_eq]
      rw [ih]
      simp [add_assoc]

/-- A camera step whose incremented consecutive counter stays below the
alert threshold never fires and keeps the alert timestamp. -/
theorem camStep_no_fire_below (s : DetectorState) (score : ℕ) (now : ℚ)
    (h : s.drowsy_frames + 1 < alert_threshold) :
    (camStep s score now).1.drowsy_frames =
      (if score ≥ 65 then s.drowsy_frames + 1 else 0) ∧
    (camStep s score now).1.last_alert_time = s.last_alert_time ∧
    (camStep s score now).2 = false := by
  unfold camStep trigger_camera_alert
  dsimp only
  split_ifs <;> first | exact ⟨rfl, rfl, rfl⟩ | (exfalso; omega)

/-- A camera step within the cooldown window never fires and keeps the
alert timestamp, even when the threshold is reached. -/
theorem camStep_no_fire_cooldown (s : DetectorState) (score : ℕ) (now : ℚ)
    (h : now ≤ s.last_alert_time + alert_cooldown) :
    (camStep s score now).1.drowsy_frames =
      (if score ≥ 65 then s.drowsy_frames + 1 else 0) ∧
    (camStep s score now).1.last_alert_time = s.last_alert_time ∧
    (camStep s score now).2 = false := by
  unfold camStep trigger_camera_alert
  dsimp only
  split_ifs <;> first | exact ⟨rfl, rfl, rfl⟩ | (exfalso; linarith)

/-- A camera step at score ≥ 65 whose incremented consecutive counter
reaches the threshold, past the cooldown, fires exactly once and stamps
the alert timestamp. -/
theorem camStep_fire (s : DetectorState) (score : ℕ) (now : ℚ)
    (h65 : score ≥ 65) (hthr : s.drowsy_frames + 1 ≥ alert_threshold)
    (hcool : now - s.last_alert_time > alert_cooldown) :
    (camStep s score now).1.drowsy_frames = s.drowsy_frames + 1 ∧
    (camStep s score now).1.last_alert_time = now ∧
    (camStep s score now).2 = true := by
  unfold camStep trigger_camera_alert
  dsimp only
  split_ifs <;> exact ⟨rfl, rfl, rfl⟩

/-- Running frames that all score ≥ 65 while the consecutive counter
stays below the threshold fires no alert. -/
theorem camRun_no_alert_below (L : List (ℕ × ℚ)) :
    ∀ s : DetectorState, (∀ f ∈ L, 65 ≤ f.1) →
    s.drowsy_frames + L.length < alert_threshold →
    (camRun s L).1.drowsy_frames = s.drowsy_frames + L.length ∧
    (camRun s L).1.last_alert_time = s.last_alert_time ∧
    (camRun s L).2 = 0 := by
  induction L with
  | nil => intro s _ _; exact ⟨rfl, rfl, rfl⟩
  | cons f rest ih =>
      intro s hall hlen
      have h65 : 65 ≤ f.1 := hall f (List.mem_cons_self f rest)
      have hstep := camStep_no_fire_below s f.1 f.2 (by
        simp only [List.length_cons] at hlen; omega)
      rw [if_pos h65] at hstep
      obtain ⟨hdf, hlast, hfired⟩ := hstep
      have htail := ih (camStep s f.1 f.2).1
        (fun g hg => hall g (List.mem_cons_of_mem f hg)) (by
          rw [hdf]; simp only [List.length_cons] at hlen ⊢; omega)
      simp only [camRun, hfired]
      refine ⟨?_, ?_, ?_⟩
      · rw [htail.1, hdf]; simp [List.length_cons]; omega
      · rw [htail.2.1, hlast]
      · simp [htail.2.2]

/-- Running frames that all score ≥ 65 but fall inside the cooldown
window of the last alert fires no further alert (the consecutive counter
keeps growing). -/
theorem camRun_no_alert_blocked (L : List (ℕ × ℚ)) :
    ∀ s : DetectorState,
    (∀ f ∈ L, 65 ≤ f.1 ∧ f.2 ≤ s.last_alert_time + alert_cooldown) →
    (camRun s L).1.drowsy_frames = s.drowsy_frames + L.length ∧
    (camRun s L).1.last_alert_time = s.last_alert_time ∧
    (camRun s L).2 = 0 := by
  induction L with
  | nil => intro s _; exact ⟨rfl, rfl, rfl⟩
  | cons f rest ih =>
      intro s hall
      obtain ⟨h65, hcool⟩ := hall f (List.mem_cons_self f rest)
      have hstep := camStep_no_fire_cooldown s f.1 f.2 hcool
      rw [if_pos h65] at hstep
      obtain ⟨hdf, hlast, hfired⟩ := hstep
      have htail := ih (camStep s f.1 f.2).1 (fun g hg => by
        rw [hlast]; exact hall g (List.mem_cons_of_mem f hg))
      simp only [camRun, hfired]
      refine ⟨?_, ?_, ?_⟩
      · rw [htail.1, hdf]; simp [List.length_cons]; omega
      · rw [htail.2.1, hlast]
      · simp [htail.2.2]

/-- C2: from a fresh camera session, 29 consecutive frames scoring ≥ 65
fire no alert; a 30th consecutive such frame (at wall-clock time past the
5-second cooldown measured from the reset timestamp 0) fires exactly one
alert; 30 further such frames within the 5-second cooldown of that alert
fire no second alert; and one more such frame after the cooldown has
elapsed, the threshold still being met, fires exactly one more alert. -/
theorem camera_alert_debounce (s : DetectorState)
    (A C : List (ℕ × ℚ)) (b d : ℕ × ℚ)
    (hA_len : A.length = 29) (hA : ∀ f ∈ A, 65 ≤ f.1)
    (hb : 65 ≤ b.1) (hb_time : b.2 > 5)
    (hC_len : C.length = 30) (hC : ∀ f ∈ C, 65 ≤ f.1 ∧ f.2 ≤ b.2 + 5)
    (hd : 65 ≤ d.1) (hd_time : d.2 - b.2 > 5) :
    (camRun (start_camera_reset s) A).2 = 0 ∧
    (camRun (start_camera_reset s) (A ++ [b])).2 = 1 ∧
    (camRun (start_camera_reset s) (A ++ [b] ++ C)).2 = 1 ∧
    (camRun (start_camera_reset s) (A ++ [b] ++ C ++ [d])).2 = 2 := by
  set s0 := start_camera_reset s with hs0
  have hs0df : s0.drowsy_frames = 0 := rfl
  have hs0last : s0.last_alert_time = 0 := rfl
  have hA_run := camRun_no_alert_below A s0 hA (by
    rw [hs0df, hA_len]; norm_num [alert_threshold])
  obtain ⟨hA_df, hA_last, hA_cnt⟩ := hA_run
  rw [hs0df, hA_len] at hA_df
  rw [hs0last] at hA_last
  have hb_fire := camStep_fire (camRun s0 A).1 b.1 b.2 hb
    (by rw [hA_df]; norm_num [alert_threshold])
    (by rw [hA_last]; simpa [alert_cooldown] using hb_time)
  obtain ⟨hb_df, hb_last, hb_fired⟩ := hb_fire
  rw [hA_df] at hb_df
  have hAb : camRun s0 (A ++ [b]) =
      ((camStep (camRun s0 A).1 b.1 b.2).1, 1) := by
    rw [camRun_append]
    simp [camRun, hb_fired, hA_cnt]
  have hC_run := camRun_no_alert_blocked C
    (camStep (camRun s0 A).1 b.1 b.2).1 (fun g hg => by
      rw [hb_last]
      have hg2 := hC g hg
      exact ⟨hg2.1, by simpa [alert_cooldown] using hg2.2⟩)
  obtain ⟨hC_df, hC_last, hC_cnt⟩ := hC_run
  rw [hb_df, hC_len] at hC_df
  rw [hb_last] at hC_last
  have hd_fire := camStep_fire
    (camRun (camStep (camRun s0 A).1 b.1 b.2).1 C).1 d.1 d.2 hd
    (by rw [hC_df]; norm_num [alert_threshold])
    (by rw [hC_last]; simpa [alert_cooldown] using hd_time)
  obtain ⟨hd_df, hd_last, hd_fired⟩ := hd_fire
  refine ⟨hA_cnt, ?_, ?_, ?_⟩
  · rw [hAb]
  · rw [camRun_append, hAb]
    simp [hC_cnt]
  · rw [camRun_append, camRun_append, hAb]
    simp [camRun, hC_cnt, hd_fired]

/-- Witness for C2: 29 frames of score 70 at time 10, the 30th at time
10, 30 blocked frames at time 12, and a final frame at time 20. -/
theorem camera_alert_debounce_witness :
    (camRun (start_camera_reset ⟨1, 2, 3, 4, 5⟩)
      (List.replicate 29 ((70 : ℕ), (10 : ℚ)))).2 = 0 ∧
    (camRun (start_camera_reset ⟨1, 2, 3, 4, 5⟩)
      (List.replicate 29 ((70 : ℕ), (10 : ℚ)) ++ [(70, 10)])).2 = 1 ∧
    (camRun (start_camera_reset ⟨1, 2, 3, 4, 5⟩)
      (List.replicate 29 ((70 : ℕ), (10 : ℚ)) ++ [(70, 10)] ++
        List.replicate 30 ((70 : ℕ), (12 : ℚ)))).2 = 1 ∧
    (camRun (start_camera_reset ⟨1, 2, 3, 4, 5⟩)
      (List.replicate 29 ((70 : ℕ), (10 : ℚ)) ++ [(70, 10)] ++
        List.replicate 30 ((70 : ℕ), (12 : ℚ)) ++ [(70, 20)])).2 = 2 :=
  camera_alert_debounce ⟨1, 2, 3, 4, 5⟩
    (List.replicate 29 ((70 : ℕ), (10 : ℚ)))
    (List.replicate 30 ((70 : ℕ), (12 : ℚ)))
    (70, 10) (70, 20)
    (by simp)
    (fun f hf => by rw [List.eq_of_mem_replicate hf]; norm_num)
    (by norm_num) (by norm_num)
    (by simp)
    (fun f hf => by rw [List.eq_of_mem_replicate hf]; exact ⟨by norm_num, by norm_num⟩)
    (by norm_num) (by norm_num)

/-- Witness for the amended C9: applied at a concrete dirty state with a
new-session time of 6 seconds. -/
theorem session_reset_amended_witness :
    (start_camera_reset ⟨3, 4, 5, 6, 7⟩).total_frames = 0 ∧
    (start_camera_reset ⟨3, 4, 5, 6, 7⟩).current_frame_num = 0 ∧
    (start_camera_reset ⟨3, 4, 5, 6, 7⟩).drowsy_detections = 0 ∧
    (start_camera_reset ⟨3, 4, 5, 6, 7⟩).drowsy_frames = 0 ∧
    (start_camera_reset ⟨3, 4, 5, 6, 7⟩).last_alert_time = 0 ∧
    (load_video_reset ⟨3, 4, 5, 6, 7⟩ 10).current_frame_num = 0 ∧
    (load_video_reset ⟨3, 4, 5, 6, 7⟩ 10).drowsy_detections = 0 ∧
    (load_video_reset ⟨3, 4, 5, 6, 7⟩ 10).drowsy_frames = 0 ∧
    (load_video_reset ⟨3, 4, 5, 6, 7⟩ 10).last_alert_time =
      DetectorState.last_alert_time ⟨3, 4, 5, 6, 7⟩ ∧
    (load_image_reset ⟨3, 4, 5, 6, 7⟩).total_frames = 1 ∧
    (load_image_reset ⟨3, 4, 5, 6, 7⟩).current_frame_num = 0 ∧
    (load_image_reset ⟨3, 4, 5, 6, 7⟩).drowsy_detections = 0 ∧
    (load_image_reset ⟨3, 4, 5, 6, 7⟩).drowsy_frames = 0 ∧
    (load_image_reset ⟨3, 4, 5, 6, 7⟩).last_alert_time =
      DetectorState.last_alert_time ⟨3, 4, 5, 6, 7⟩ ∧
    (trigger_camera_alert (start_camera_reset ⟨3, 4, 5, 6, 7⟩) 6).2 = true :=
  session_reset_amended ⟨3, 4, 5, 6, 7⟩ 10 6 (by norm_num)

/-- C4: for every landmark set, `calculate_eye_aspect_ratio` returns
`(dist(p2,p6) + dist(p3,p5)) / (2 * dist(p1,p4))` when `dist(p1,p4)` is
nonzero and exactly 0 (raising no exception) when it is 0; likewise
`calculate_mouth_aspect_ratio` returns `dist(p2,p8) / dist(p1,p5)` when
the horizontal distance is nonzero and exactly 0 when it is 0. Distances
are Euclidean in the 2-D plane. -/
theorem aspect_ratio_formulas (eye : Fin 6 → ℕ) (mouth : Fin 4 → ℕ)
    (landmarks : ℕ → Landmark) :
    (calculate_distance (landmarks (eye 0)) (landmarks (eye 3)) = 0 →
      calculate_eye_aspect_ratio eye landmarks = 0) ∧
    (calculate_distance (landmarks (eye 0)) (landmarks (eye 3)) ≠ 0 →
      calculate_eye_aspect_ratio eye landmarks =
        (calculate_distance (landmarks (eye 1)) (landmarks (eye 5)) +
         calculate_distance (landmarks (eye 2)) (landmarks (eye 4))) /
        (2 * calculate_distance (landmarks (eye 0)) (landmarks (eye 3)))) ∧
    (calculate_distance (landmarks (mouth 0)) (landmarks (mouth 2)) = 0 →
      calculate_mouth_aspect_ratio mouth landmarks = 0) ∧
    (calculate_distance (landmarks (mouth 0)) (landmarks (mouth 2)) ≠ 0 →
      calculate_mouth_aspect_ratio mouth landmarks =
        calculate_distance (landmarks (mouth 1)) (landmarks (mouth 3)) /
        calculate_distance (landmarks (mouth 0)) (landmarks (mouth 2))) := by
  refine ⟨?_, ?_, ?_, ?_⟩
  · intro h
    unfold calculate_eye_aspect_ratio
    dsimp only
    rw [if_pos h]
  · intro h
    unfold calculate_eye_aspect_ratio
    dsimp only
    rw [if_neg h]
    norm_num
  · intro h
    unfold calculate_mouth_aspect_ratio
    dsimp only
    rw [if_pos h]
  · intro h
    unfold calculate_mouth_aspect_ratio
    dsimp only
    rw [if_neg h]

set_option maxHeartbeats 1000000 in
/-- Witness for C4: with all landmarks at the origin both horizontal
distances are 0 and both ratios are 0; with landmark `n` at `(n, 0)` the
eye ratio is `(4 + 2) / (2 * 3) = 1` and the mouth ratio is `2 / 2 = 1`. -/
theorem aspect_ratio_formulas_witness :
    (calculate_eye_aspect_ratio (fun i => i.val) (fun _ => ⟨0, 0⟩) = 0) ∧
    (calculate_mouth_aspect_ratio (fun i => i.val) (fun _ => ⟨0, 0⟩) = 0) ∧
    (calculate_eye_aspect_ratio (fun i => i.val) (fun n => ⟨(n : ℝ), 0⟩) = 1) ∧
    (calculate_mouth_aspect_ratio (fun i => i.val) (fun n => ⟨(n : ℝ), 0⟩) = 1) := by
  have hz : calculate_distance (⟨0, 0⟩ : Landmark) ⟨0, 0⟩ = 0 := by
    simp [calculate_distance]
  have s16 : Real.sqrt 16 = 4 := by
    rw [show (16 : ℝ) = 4 ^ 2 by norm_num]
    exact Real.sqrt_sq (by norm_num)
  have s9 : Real.sqrt 9 = 3 := by
    rw [show (9 : ℝ) = 3 ^ 2 by norm_num]
    exact Real.sqrt_sq (by norm_num)
  have s4 : Real.sqrt 4 = 2 := by
    rw [show (4 : ℝ) = 2 ^ 2 by norm_num]
    exact Real.sqrt_sq (by norm_num)
  refine ⟨?_, ?_, ?_, ?_⟩
  · exact (aspect_ratio_formulas (fun i => i.val) (fun i => i.val)
      (fun _ => ⟨0, 0⟩)).1 hz
  · exact (aspect_ratio_formulas (fun i => i.val) (fun i => i.val)
      (fun _ => ⟨0, 0⟩)).2.2.1 hz
  · have e := (aspect_ratio_formulas (fun i => i.val) (fun i => i.val)
      (fun n => ⟨(n : ℝ), 0⟩)).2.1 (by
        unfold calculate_distance
        dsimp only
        norm_num [show ((3 : Fin 6).val) = 3 from rfl])
    rw [e]
    unfold calculate_distance
    dsimp only
    norm_num [show ((1 : Fin 6).val) = 1 from rfl, show ((2 : Fin 6).val) = 2 from rfl,
      show ((3 : Fin 6).val) = 3 from rfl, show ((4 : Fin 6).val) = 4 from rfl,
      show ((5 : Fin 6).val) = 5 from rfl, s16, s9, s4]
  · have e := (aspect_ratio_formulas (fun i => i.val) (fun i => i.val)
      (fun n => ⟨(n : ℝ), 0⟩)).2.2.2 (by
        unfold calculate_distance
        dsimp only
        norm_num [show ((2 : Fin 4).val) = 2 from rfl])
    rw [e]
    unfold calculate_distance
    dsimp only
    norm_num [show ((1 : Fin 4).val) = 1 from rfl, show ((2 : Fin 4).val) = 2 from rfl,
      show ((3 : Fin 4).val) = 3 from rfl, s16, s9, s4]

end Drowsiness
